import Mathlib

/-!
Shallow embedding of the identity/authentication flow of the `logins`
backend (`src/app/main.py` together with the column constraints declared in
`src/app/models.py`).  Pure Lean translations of the route handlers operate
on an explicit store (`List User`); the external Firebase verifier is a
parameter (`Verifier`).  The theorems below settle the frozen claims about
this flow.
-/

namespace Logins

/-- Worker for `pysplit`: walk the characters, accumulating the current
word reversed, emitting it at each whitespace run boundary. -/
def pysplitAux : List Char → List Char → List String
  | [], cur => if cur = [] then [] else [cur.reverse.asString]
  | c :: rest, cur =>
    if c.isWhitespace then
      if cur = [] then pysplitAux rest []
      else cur.reverse.asString :: pysplitAux rest []
    else pysplitAux rest (c :: cur)

/-- Python `str.split()` with no argument: split on runs of whitespace,
discarding empty fragments. -/
def pysplit (s : String) : List String :=
  pysplitAux s.data []

/-- Python `e.split("@")[0]`: everything before the first `@`
(the whole string when no `@` occurs). -/
def localPart (e : String) : String :=
  (e.data.takeWhile fun c => c ≠ '@').asString

/-- Python `u[:8]`: the first eight characters (fewer when shorter). -/
def take8 (u : String) : String :=
  (u.data.take 8).asString

/-- Python `str(n)` for a natural number: its decimal digit string
(`Nat.digits` is little-endian, hence the `reverse`). -/
def pyStr (n : Nat) : String :=
  if n = 0 then "0"
  else (((Nat.digits 10 n).reverse).map Nat.digitChar).asString

/-- The user row of `models.User` (`src/app/models.py`).  `username`,
`email` and `uid` carry `unique=True` column constraints; `email`, `uid`
and the profile columns are nullable.  `created_at` is the server-set
creation timestamp, abstracted as a `Nat`. -/
structure User where
  uid : Option String
  username : String
  email : Option String
  hashed_password : Option String := none
  display_name : Option String := none
  state : Option String := none
  language : Option String := none
  photo_url : Option String := none
  bio : Option String := none
  created_at : Nat := 0
deriving DecidableEq

/-- The decoded Firebase token: the claim set returned by
`firebase_config.verify_token`.  Each claim is read with `dict.get`, hence
every field is optional. -/
structure Claims where
  uid : Option String := none
  email : Option String := none
  name : Option String := none
  picture : Option String := none
deriving DecidableEq

/-- The external token verifier (`firebase_config.verify_token`):
`none` models a verification failure. -/
abbrev Verifier := String → Option Claims

/-- Error outcomes of a request: an `HTTPException` with status code and
detail, an uncaught Python `IndexError`/`TypeError`, or an uncaught
database `IntegrityError` raised by a unique-column violation at commit. -/
inductive AppError where
  | http (statusCode : Nat) (detail : String)
  | indexError
  | typeError
  | integrityError
deriving DecidableEq

/-- Model of `db.add` + `db.commit`: the insert succeeds and appends the row, or
the database rejects it on a `unique=True` column (`username`, `email`,
`uid`; `NULL`s never collide) and nothing is persisted. -/
def insertUser (store : List User) (u : User) : Option (List User) :=
  if store.any (fun v => v.username == u.username) then none
  else if store.any (fun v => u.email.isSome && v.email == u.email) then none
  else if store.any (fun v => u.uid.isSome && v.uid == u.uid) then none
  else some (store ++ [u])

/-- Model of `db.query(User).filter(User.uid == uid).first()` (SQLAlchemy turns a
`None` comparand into `IS NULL`, matched here by `none == none`). -/
def findByUid (store : List User) (uid : Option String) : Option User :=
  store.find? fun u => u.uid == uid

/-- Model of `db.query(User).filter(User.username == username).first()` as a
pure existence test. -/
def usernameTaken (store : List User) (u : String) : Bool :=
  store.any fun v => v.username == u

/-- The `get_current_user` dependency of `main.py`: parse the
`Authorization` header, verify the bearer token, and look the user up by
the verified `uid`.  It only reads the store. -/
def get_current_user (verify : Verifier) (store : List User)
    (authorization : Option String) : Except AppError User :=
  match authorization with
  | none => Except.error (AppError.http 401 "Authorization header missing")
  | some auth =>
    if (pysplit auth).length ≠ 2 || (pysplit auth).headD "" ≠ "Bearer" then
      Except.error (AppError.http 401 "Invalid authorization scheme")
    else
      match verify ((pysplit auth).getD 1 "") with
      | none => Except.error (AppError.http 401 "Invalid or expired token")
      | some tok =>
        match findByUid store tok.uid with
        | none => Except.error (AppError.http 404 "User not found in database")
        | some user => Except.ok user

/-- The row built by `register_user`'s `models.User(...)` call:
`hashed_password` is not passed and its nullable column stays `NULL`. -/
def mkRegisteredUser (uid : Option String) (username email : String)
    (dn : Option String) (now : Nat) : User :=
  { uid := uid, username := username, email := some email,
    hashed_password := none, display_name := dn, state := none,
    language := none, photo_url := none, bio := none, created_at := now }

/-- The `POST /user/register` handler.  Python's `if not authorization`
treats both a missing and an empty header as falsy; the bearer token is
taken as `authorization.split()[1]`, which raises `IndexError` when the
split has fewer than two parts. -/
def register_user (verify : Verifier) (store : List User)
    (authorization : Option String) (username email : String)
    (dn : Option String) (now : Nat) : Except AppError (User × List User) :=
  match authorization with
  | none => Except.error (AppError.http 401 "No token")
  | some auth =>
    if auth = "" then Except.error (AppError.http 401 "No token")
    else
      match (pysplit auth).get? 1 with
      | none => Except.error AppError.indexError
      | some tokenStr =>
        match verify tokenStr with
        | none => Except.error (AppError.http 401 "Invalid token")
        | some tok =>
          if usernameTaken store username then
            Except.error (AppError.http 400 "Username already taken")
          else
            match insertUser store (mkRegisteredUser tok.uid username email dn now) with
            | none => Except.error AppError.integrityError
            | some outStore =>
              Except.ok (mkRegisteredUser tok.uid username email dn now, outStore)

/-- The `count`-th username candidate of `google_login`'s collision loop:
the bare base first, then `f"{base_username}{count}"` for `count ≥ 1`. -/
def candidate (base : String) : Nat → String
  | 0 => base
  | Nat.succ k => base ++ pyStr (Nat.succ k)

/-- The `while` loop of `google_login` with explicit fuel: try
`candidate base count`, advancing `count` while the name is taken;
`none` models running out of fuel. -/
def resolveAux (store : List User) (base : String) : Nat → Nat → Option String
  | 0, _ => none
  | Nat.succ fuel, count =>
    if usernameTaken store (candidate base count) then
      resolveAux store base fuel (count + 1)
    else some (candidate base count)

/-- The resolved unique username: `store.length + 1` fuel always suffices
(there are more candidates than stored rows), so the default is never
reached. -/
def resolve_username (store : List User) (base : String) : String :=
  (resolveAux store base (store.length + 1) 0).getD base

/-- Model of the candidate computation: the email local-part if the email is
truthy, else the fixed prefix with a short slice of the uid (its first 8
characters).
Python truthiness sends both a missing and an empty email to the fallback,
and slicing a `None` uid raises `TypeError`. -/
def base_username (uid : Option String) (email : Option String) :
    Except AppError String :=
  match email with
  | some e =>
    if e = "" then
      match uid with
      | some u => Except.ok ("user_" ++ take8 u)
      | none => Except.error AppError.typeError
    else Except.ok (localPart e)
  | none =>
    match uid with
    | some u => Except.ok ("user_" ++ take8 u)
    | none => Except.error AppError.typeError

/-- The row built by `google_login`'s `models.User(...)` call. -/
def mkGoogleUser (tok : Claims) (username : String) (now : Nat) : User :=
  { uid := tok.uid, username := username, email := tok.email,
    hashed_password := none, display_name := tok.name, state := none,
    language := none, photo_url := tok.picture, bio := none,
    created_at := now }

/-- The profile dictionary returned by `google_login`. -/
structure Profile where
  uid : Option String
  username : String
  email : Option String
  created_at : Nat
  display_name : Option String
  photo_url : Option String
  state : Option String
  language : Option String
deriving DecidableEq

/-- Read a user's fields into the returned profile dictionary. -/
def profileOf (u : User) : Profile :=
  { uid := u.uid, username := u.username, email := u.email,
    created_at := u.created_at, display_name := u.display_name,
    photo_url := u.photo_url, state := u.state, language := u.language }

/-- The body of `google_login`'s response: `new_user` plus the profile. -/
structure LoginResult where
  new_user : Bool
  profile : Profile
deriving DecidableEq

/-- The `POST /user/google-login` handler: verify the token, look up by
`uid`, and either return the existing user or create one with a
collision-resolved username. -/
def google_login (verify : Verifier) (store : List User)
    (id_token : String) (now : Nat) :
    Except AppError (LoginResult × List User) :=
  match verify id_token with
  | none => Except.error (AppError.http 401 "Invalid Google Token")
  | some tok =>
    match findByUid store tok.uid with
    | some user =>
      Except.ok ({ new_user := false, profile := profileOf user }, store)
    | none =>
      match base_username tok.uid tok.email with
      | Except.error e => Except.error e
      | Except.ok base =>
        match insertUser store (mkGoogleUser tok (resolve_username store base) now) with
        | none => Except.error AppError.integrityError
        | some outStore =>
          Except.ok
            ({ new_user := true,
               profile :=
                 profileOf (mkGoogleUser tok (resolve_username store base) now) },
             outStore)

/-- The partial-update payload of `schemas.UserProfileUpdate`: all five
fields optional. -/
structure ProfileUpdate where
  display_name : Option String := none
  state : Option String := none
  language : Option String := none
  photo_url : Option String := none
  bio : Option String := none
deriving DecidableEq

/-- Python truthiness of an optional string field: `None` and `""` are
falsy. -/
def truthy : Option String → Bool
  | none => false
  | some s => s ≠ ""

/-- Guarded assignment of display_name when truthy. -/
def setDisplayName (u : User) (p : ProfileUpdate) : User :=
  if truthy p.display_name then { u with display_name := p.display_name } else u

/-- Guarded assignment of state when truthy. -/
def setState (u : User) (p : ProfileUpdate) : User :=
  if truthy p.state then { u with state := p.state } else u

/-- Guarded assignment of language when truthy. -/
def setLanguage (u : User) (p : ProfileUpdate) : User :=
  if truthy p.language then { u with language := p.language } else u

/-- Guarded assignment of photo_url when truthy. -/
def setPhotoUrl (u : User) (p : ProfileUpdate) : User :=
  if truthy p.photo_url then { u with photo_url := p.photo_url } else u

/-- Guarded assignment of bio when truthy. -/
def setBio (u : User) (p : ProfileUpdate) : User :=
  if truthy p.bio then { u with bio := p.bio } else u

/-- The five guarded assignments of `update_user_profile` in order. -/
def applyProfileUpdate (u : User) (p : ProfileUpdate) : User :=
  setBio (setPhotoUrl (setLanguage (setState (setDisplayName u p) p) p) p) p

/-- The `POST /user/profile` handler: authenticate via `get_current_user`,
mutate the current user's truthy-supplied fields, and commit. -/
def update_user_profile (verify : Verifier) (store : List User)
    (authorization : Option String) (p : ProfileUpdate) :
    Except AppError (User × List User) :=
  match get_current_user verify store authorization with
  | Except.error e => Except.error e
  | Except.ok cu =>
    Except.ok (applyProfileUpdate cu p,
      store.map fun v =>
        if v.username == cu.username then applyProfileUpdate v p else v)

/-- One sequential API call of the flows under scrutiny. -/
inductive Op where
  | reg (authorization : Option String) (username email : String)
      (dn : Option String) (now : Nat)
  | glog (id_token : String) (now : Nat)
  | upd (authorization : Option String) (p : ProfileUpdate)

/-- The store after an operation: the new store on success, the old store
when the request errors (the failed transaction is not committed). -/
def stepOp (verify : Verifier) (store : List User) : Op → List User
  | Op.reg a un em dn now =>
    match register_user verify store a un em dn now with
    | Except.ok r => r.2
    | Except.error _ => store
  | Op.glog t now =>
    match google_login verify store t now with
    | Except.ok r => r.2
    | Except.error _ => store
  | Op.upd a p =>
    match update_user_profile verify store a p with
    | Except.ok r => r.2
    | Except.error _ => store

/-- A sequence of API calls executed sequentially. -/
def runOps (verify : Verifier) (store : List User) (ops : List Op) :
    List User :=
  ops.foldl (stepOp verify) store

/-- Username uniqueness and (present-)email uniqueness across the store. -/
def StoreInv (store : List User) : Prop :=
  store.Pairwise fun a b =>
    a.username ≠ b.username ∧ ¬(a.email.isSome = true ∧ a.email = b.email)

/-- Every user of `s` is still at its position in `s'` with an unchanged
`uid`. -/
def UidsPreserved (s s' : List User) : Prop :=
  s.length ≤ s'.length ∧
    ∀ i, i < s.length → s'[i]?.map User.uid = s[i]?.map User.uid

/-- The candidate base username computed by `google_login` when the token
carries a subject identifier: the email local-part for a nonempty email
claim, otherwise the `user_` prefix with the first eight characters of the
subject identifier. -/
def baseFor (u0 : String) (email : Option String) : String :=
  match email with
  | some e => if e = "" then "user_" ++ take8 u0 else localPart e
  | none => "user_" ++ take8 u0

/-! ### String and decimal-representation lemmas -/

theorem data_append (a b : String) : (a ++ b).data = a.data ++ b.data := rfl

theorem length_asString (l : List Char) : l.asString.length = l.length := rfl

theorem length_append (a b : String) :
    (a ++ b).length = a.length + b.length := by
  show ((a ++ b).data).length = (a.data).length + (b.data).length
  rw [data_append, List.length_append]

theorem asString_injective {l₁ l₂ : List Char}
    (h : l₁.asString = l₂.asString) : l₁ = l₂ :=
  congrArg String.data h

theorem digitChar_inj_lt :
    ∀ a < 10, ∀ b < 10, Nat.digitChar a = Nat.digitChar b → a = b := by
  decide

theorem map_digitChar_inj {l₁ l₂ : List Nat}
    (h₁ : ∀ x ∈ l₁, x < 10) (h₂ : ∀ x ∈ l₂, x < 10)
    (h : l₁.map Nat.digitChar = l₂.map Nat.digitChar) : l₁ = l₂ := by
  induction l₁ generalizing l₂ with
  | nil =>
    cases l₂ with
    | nil => rfl
    | cons b t => simp at h
  | cons a t ih =>
    cases l₂ with
    | nil => simp at h
    | cons b t₂ =>
      simp only [List.map_cons, List.cons.injEq] at h
      have hab : a = b :=
        digitChar_inj_lt a (h₁ a (by simp)) b (h₂ b (by simp)) h.1
      have ht : t = t₂ :=
        ih (fun x hx => h₁ x (by simp [hx]))
          (fun x hx => h₂ x (by simp [hx])) h.2
      rw [hab, ht]

theorem pyStr_injOn {m n : Nat} (hm : m ≠ 0) (hn : n ≠ 0)
    (h : pyStr m = pyStr n) : m = n := by
  unfold pyStr at h
  rw [if_neg hm, if_neg hn] at h
  have h2 := asString_injective h
  have h3 : (Nat.digits 10 m).reverse = (Nat.digits 10 n).reverse :=
    map_digitChar_inj
      (fun x hx =>
        Nat.digits_lt_base (by norm_num) (List.mem_reverse.mp hx))
      (fun x hx =>
        Nat.digits_lt_base (by norm_num) (List.mem_reverse.mp hx)) h2
  have h4 : Nat.digits 10 m = Nat.digits 10 n := List.reverse_injective h3
  calc m = Nat.ofDigits 10 (Nat.digits 10 m) :=
        (Nat.ofDigits_digits 10 m).symm
    _ = Nat.ofDigits 10 (Nat.digits 10 n) := by rw [h4]
    _ = n := Nat.ofDigits_digits 10 n

theorem pyStr_length_pos (n : Nat) : 0 < (pyStr n).length := by
  unfold pyStr
  split
  · decide
  · rw [length_asString, List.length_map, List.length_reverse]
    have hne : Nat.digits 10 n ≠ [] :=
      Nat.digits_ne_nil_iff_ne_zero.mpr (by assumption)
    exact List.length_pos.mpr hne

theorem candidate_zero_ne_succ (base : String) (k : Nat) :
    candidate base 0 ≠ candidate base (k + 1) := by
  intro h
  simp only [candidate] at h
  have hlen := congrArg String.length h
  rw [length_append] at hlen
  have := pyStr_length_pos k.succ
  omega

theorem candidate_injective (base : String) :
    Function.Injective (candidate base) := by
  intro i j h
  match i, j with
  | 0, 0 => rfl
  | 0, k + 1 => exact absurd h (candidate_zero_ne_succ base k)
  | k + 1, 0 => exact absurd h.symm (candidate_zero_ne_succ base k)
  | i + 1, j + 1 =>
    simp only [candidate] at h
    have h2 : (pyStr (i + 1)).data = (pyStr (j + 1)).data := by
      have hd := congrArg String.data h
      rw [data_append, data_append] at hd
      exact List.append_cancel_left hd
    have h3 : pyStr (i + 1) = pyStr (j + 1) := String.ext h2
    have := pyStr_injOn (Nat.succ_ne_zero i) (Nat.succ_ne_zero j) h3
    omega

/-! ### Collision-loop lemmas -/

theorem exists_free_candidate (store : List User) (base : String) :
    ∃ i, i < store.length + 1 ∧
      usernameTaken store (candidate base i) = false := by
  by_contra hcon
  push_neg at hcon
  have htaken : ∀ i < store.length + 1,
      candidate base i ∈ store.map User.username := by
    intro i hi
    have hne := hcon i hi
    have hb : usernameTaken store (candidate base i) = true := by
      cases hq : usernameTaken store (candidate base i)
      · exact absurd hq hne
      · rfl
    unfold usernameTaken at hb
    rw [List.any_eq_true] at hb
    obtain ⟨v, hv, hvb⟩ := hb
    rw [beq_iff_eq] at hvb
    exact List.mem_map.mpr ⟨v, hv, hvb⟩
  have hsub : (Finset.range (store.length + 1)).image (candidate base) ⊆
      (store.map User.username).toFinset := by
    intro x hx
    rw [Finset.mem_image] at hx
    obtain ⟨i, hi, rfl⟩ := hx
    rw [List.mem_toFinset]
    exact htaken i (Finset.mem_range.mp hi)
  have hcard1 :
      ((Finset.range (store.length + 1)).image (candidate base)).card =
        store.length + 1 := by
    rw [Finset.card_image_of_injective _ (candidate_injective base),
      Finset.card_range]
  have hcard2 := Finset.card_le_card hsub
  have hcard3 : (store.map User.username).toFinset.card ≤ store.length := by
    have h := (store.map User.username).toFinset_card_le
    simpa using h
  omega

theorem resolveAux_spec (store : List User) (base : String) :
    ∀ fuel count,
      (∃ i, i < fuel ∧
        usernameTaken store (candidate base (count + i)) = false) →
      ∃ k, resolveAux store base fuel count =
            some (candidate base (count + k)) ∧
        usernameTaken store (candidate base (count + k)) = false ∧
        ∀ j, j < k → usernameTaken store (candidate base (count + j)) = true := by
  intro fuel
  induction fuel with
  | zero =>
    rintro count ⟨i, hi, _⟩
    omega
  | succ fuel ih =>
    rintro count ⟨i, hi, hfree⟩
    by_cases htaken : usernameTaken store (candidate base count) = true
    · have hpos : i ≠ 0 := by
        intro h0
        rw [h0, Nat.add_zero] at hfree
        rw [htaken] at hfree
        exact Bool.noConfusion hfree
      obtain ⟨i', rfl⟩ : ∃ i', i = i' + 1 := ⟨i - 1, by omega⟩
      have hfree' :
          usernameTaken store (candidate base ((count + 1) + i')) = false := by
        rw [show (count + 1) + i' = count + (i' + 1) by omega]
        exact hfree
      obtain ⟨k', hres, hf, hmin⟩ := ih (count + 1) ⟨i', by omega, hfree'⟩
      refine ⟨k' + 1, ?_, ?_, ?_⟩
      · simp only [resolveAux]
        rw [if_pos htaken,
          show count + (k' + 1) = (count + 1) + k' by omega]
        exact hres
      · rw [show count + (k' + 1) = (count + 1) + k' by omega]
        exact hf
      · intro j hj
        cases j with
        | zero =>
          rw [Nat.add_zero]
          exact htaken
        | succ j' =>
          rw [show count + (j' + 1) = (count + 1) + j' by omega]
          exact hmin j' (by omega)
    · refine ⟨0, ?_, ?_, ?_⟩
      · simp only [resolveAux]
        rw [if_neg htaken, Nat.add_zero]
      · rw [Nat.add_zero]
        cases hq : usernameTaken store (candidate base count)
        · rfl
        · exact absurd hq htaken
      · intro j hj
        omega

theorem resolveAux_mono (store : List User) (base : String) :
    ∀ fuel fuel' count r, fuel ≤ fuel' →
      resolveAux store base fuel count = some r →
      resolveAux store base fuel' count = some r := by
  intro fuel
  induction fuel with
  | zero =>
    intro fuel' count r _ h
    simp [resolveAux] at h
  | succ fuel ih =>
    intro fuel' count r hle h
    obtain ⟨fuel'', rfl⟩ : ∃ f, fuel' = f + 1 := ⟨fuel' - 1, by omega⟩
    simp only [resolveAux] at h ⊢
    by_cases ht : usernameTaken store (candidate base count) = true
    · rw [if_pos ht] at h ⊢
      exact ih fuel'' (count + 1) r (by omega) h
    · rw [if_neg ht] at h ⊢
      exact h

theorem resolve_username_spec (store : List User) (base : String) :
    ∃ k, resolve_username store base = candidate base k ∧
      usernameTaken store (candidate base k) = false ∧
      ∀ j, j < k → usernameTaken store (candidate base j) = true := by
  obtain ⟨i, hi, hfree⟩ := exists_free_candidate store base
  obtain ⟨k, hres, hf, hmin⟩ :=
    resolveAux_spec store base (store.length + 1) 0
      ⟨i, hi, by simpa using hfree⟩
  refine ⟨k, ?_, by simpa using hf, fun j hj => by simpa using hmin j hj⟩
  unfold resolve_username
  rw [hres]
  simp

theorem resolve_username_fresh (store : List User) (base : String) :
    usernameTaken store (resolve_username store base) = false := by
  obtain ⟨k, hk, hfree, _⟩ := resolve_username_spec store base
  rw [hk]
  exact hfree

/-! ### Profile-update characterization -/

theorem applyProfileUpdate_spec (u : User) (p : ProfileUpdate) :
    applyProfileUpdate u p = { u with
      display_name :=
        if truthy p.display_name then p.display_name else u.display_name,
      state := if truthy p.state then p.state else u.state,
      language := if truthy p.language then p.language else u.language,
      photo_url := if truthy p.photo_url then p.photo_url else u.photo_url,
      bio := if truthy p.bio then p.bio else u.bio } := by
  unfold applyProfileUpdate setBio setPhotoUrl setLanguage setState
    setDisplayName
  by_cases h1 : truthy p.display_name = true <;>
    by_cases h2 : truthy p.state = true <;>
      by_cases h3 : truthy p.language = true <;>
        by_cases h4 : truthy p.photo_url = true <;>
          by_cases h5 : truthy p.bio = true <;>
            simp [h1, h2, h3, h4, h5]

theorem applyProfileUpdate_username (u : User) (p : ProfileUpdate) :
    (applyProfileUpdate u p).username = u.username := by
  rw [applyProfileUpdate_spec]

theorem applyProfileUpdate_email (u : User) (p : ProfileUpdate) :
    (applyProfileUpdate u p).email = u.email := by
  rw [applyProfileUpdate_spec]

theorem applyProfileUpdate_uid (u : User) (p : ProfileUpdate) :
    (applyProfileUpdate u p).uid = u.uid := by
  rw [applyProfileUpdate_spec]

/-! ### Sequential execution and store invariants -/

theorem uidsPreserved_refl (s : List User) : UidsPreserved s s :=
  ⟨Nat.le_refl _, fun _ _ => rfl⟩

theorem UidsPreserved.trans {s₁ s₂ s₃ : List User}
    (h₁ : UidsPreserved s₁ s₂) (h₂ : UidsPreserved s₂ s₃) :
    UidsPreserved s₁ s₃ := by
  refine ⟨Nat.le_trans h₁.1 h₂.1, fun i hi => ?_⟩
  rw [h₂.2 i (Nat.lt_of_lt_of_le hi h₁.1), h₁.2 i hi]

theorem insertUser_checks {store : List User} {u : User}
    {outStore : List User} (h : insertUser store u = some outStore) :
    outStore = store ++ [u] ∧
      (store.any fun v => v.username == u.username) = false ∧
      (store.any fun v => u.email.isSome && v.email == u.email) = false ∧
      (store.any fun v => u.uid.isSome && v.uid == u.uid) = false := by
  unfold insertUser at h
  by_cases c1 : (store.any fun v => v.username == u.username) = true
  · rw [if_pos c1] at h
    exact Option.noConfusion h
  · rw [if_neg c1] at h
    by_cases c2 :
        (store.any fun v => u.email.isSome && v.email == u.email) = true
    · rw [if_pos c2] at h
      exact Option.noConfusion h
    · rw [if_neg c2] at h
      by_cases c3 : (store.any fun v => u.uid.isSome && v.uid == u.uid) = true
      · rw [if_pos c3] at h
        exact Option.noConfusion h
      · rw [if_neg c3] at h
        exact ⟨(Option.some.inj h).symm, Bool.eq_false_iff.mpr c1,
          Bool.eq_false_iff.mpr c2, Bool.eq_false_iff.mpr c3⟩

theorem insertUser_inv {store : List User} {u : User} {outStore : List User}
    (hinv : StoreInv store) (h : insertUser store u = some outStore) :
    StoreInv outStore := by
  obtain ⟨rfl, c1, c2, c3⟩ := insertUser_checks h
  rw [List.any_eq_false] at c1 c2
  unfold StoreInv
  rw [List.pairwise_append]
  refine ⟨hinv, List.pairwise_singleton _ _, fun a ha b hb => ?_⟩
  rw [List.mem_singleton] at hb
  subst hb
  constructor
  · intro heq
    exact c1 a ha (by rw [beq_iff_eq]; exact heq)
  · rintro ⟨hsome, heq⟩
    refine c2 a ha ?_
    rw [Bool.and_eq_true, beq_iff_eq]
    exact ⟨by rw [← heq]; exact hsome, heq⟩

theorem insertUser_uids {store : List User} {u : User} {outStore : List User}
    (h : insertUser store u = some outStore) :
    UidsPreserved store outStore := by
  obtain ⟨rfl, -, -, -⟩ := insertUser_checks h
  refine ⟨by rw [List.length_append]; omega, fun i hi => ?_⟩
  rw [List.getElem?_append_left hi]

/-- Applying the profile update to the matching rows keeps the invariant:
usernames and emails are untouched. -/
theorem updateMap_inv {store : List User} (cu : User) (p : ProfileUpdate)
    (hinv : StoreInv store) :
    StoreInv (store.map fun v =>
      if v.username == cu.username then applyProfileUpdate v p else v) := by
  refine hinv.map _ (fun a b hab => ?_)
  have ha : ∀ w : User,
      (if w.username == cu.username then applyProfileUpdate w p else w).username
        = w.username := by
    intro w
    split
    · exact applyProfileUpdate_username w p
    · rfl
  have he : ∀ w : User,
      (if w.username == cu.username then applyProfileUpdate w p else w).email
        = w.email := by
    intro w
    split
    · exact applyProfileUpdate_email w p
    · rfl
  rw [ha a, ha b, he a, he b]
  exact hab

theorem updateMap_uids {store : List User} (cu : User) (p : ProfileUpdate) :
    UidsPreserved store (store.map fun v =>
      if v.username == cu.username then applyProfileUpdate v p else v) := by
  refine ⟨Nat.le_of_eq (List.length_map _ _).symm, fun i hi => ?_⟩
  rw [List.getElem?_map]
  cases hq : store[i]? with
  | none => rfl
  | some w =>
    have huid :
        (if w.username == cu.username then applyProfileUpdate w p else w).uid
          = w.uid := by
      split
      · exact applyProfileUpdate_uid w p
      · rfl
    show some
        ((if w.username == cu.username then applyProfileUpdate w p else w).uid)
      = some w.uid
    rw [huid]

theorem register_user_ok_insert {verify : Verifier} {store : List User}
    {a : Option String} {un em : String} {dn : Option String} {now : Nat}
    {u : User} {s' : List User}
    (h : register_user verify store a un em dn now = Except.ok (u, s')) :
    insertUser store u = some s' := by
  unfold register_user at h
  cases a with
  | none => exact Except.noConfusion h
  | some auth =>
    repeat' split at h
    all_goals simp_all

theorem google_login_ok_store {verify : Verifier} {store : List User}
    {t : String} {now : Nat} {r : LoginResult} {s' : List User}
    (h : google_login verify store t now = Except.ok (r, s')) :
    s' = store ∨ ∃ u, insertUser store u = some s' := by
  unfold google_login at h
  repeat' split at h
  all_goals simp_all
  all_goals exact Or.inr ⟨_, by assumption⟩

theorem update_user_profile_ok_store {verify : Verifier} {store : List User}
    {a : Option String} {p : ProfileUpdate} {u : User} {s' : List User}
    (h : update_user_profile verify store a p = Except.ok (u, s')) :
    ∃ cu : User, s' = store.map fun v =>
      if v.username == cu.username then applyProfileUpdate v p else v := by
  unfold update_user_profile at h
  cases hg : get_current_user verify store a with
  | error e =>
    rw [hg] at h
    exact Except.noConfusion h
  | ok cu =>
    rw [hg] at h
    refine ⟨cu, ?_⟩
    have h2 := Except.ok.inj h
    exact (congrArg Prod.snd h2).symm

theorem stepOp_inv (verify : Verifier) (store : List User) (op : Op)
    (hinv : StoreInv store) :
    StoreInv (stepOp verify store op) ∧
      UidsPreserved store (stepOp verify store op) := by
  cases op with
  | reg a un em dn now =>
    cases hr : register_user verify store a un em dn now with
    | error e =>
      simp only [stepOp, hr]
      exact ⟨hinv, uidsPreserved_refl store⟩
    | ok r =>
      simp only [stepOp, hr]
      obtain ⟨u1, s1⟩ := r
      have hins := register_user_ok_insert hr
      exact ⟨insertUser_inv hinv hins, insertUser_uids hins⟩
  | glog t now =>
    cases hr : google_login verify store t now with
    | error e =>
      simp only [stepOp, hr]
      exact ⟨hinv, uidsPreserved_refl store⟩
    | ok r =>
      simp only [stepOp, hr]
      obtain ⟨r1, s1⟩ := r
      rcases google_login_ok_store hr with hsame | ⟨u, hins⟩
      · rw [hsame]
        exact ⟨hinv, uidsPreserved_refl store⟩
      · exact ⟨insertUser_inv hinv hins, insertUser_uids hins⟩
  | upd a p =>
    cases hr : update_user_profile verify store a p with
    | error e =>
      simp only [stepOp, hr]
      exact ⟨hinv, uidsPreserved_refl store⟩
    | ok r =>
      simp only [stepOp, hr]
      obtain ⟨u1, s1⟩ := r
      obtain ⟨cu, hmap⟩ := update_user_profile_ok_store hr
      rw [hmap]
      exact ⟨updateMap_inv cu p hinv, updateMap_uids cu p⟩

/-! ### Helper lemmas for the route-level theorems -/

theorem insertUser_success {store : List User} {u : User}
    (h1 : (store.any fun v => v.username == u.username) = false)
    (h2 : (store.any fun v => u.email.isSome && v.email == u.email) = false)
    (h3 : (store.any fun v => u.uid.isSome && v.uid == u.uid) = false) :
    insertUser store u = some (store ++ [u]) := by
  unfold insertUser
  rw [if_neg (by simp [h1]), if_neg (by simp [h2]), if_neg (by simp [h3])]

theorem mkGoogleUser_uid (tok : Claims) (un : String) (now : Nat) :
    (mkGoogleUser tok un now).uid = tok.uid := rfl

theorem mkGoogleUser_username (tok : Claims) (un : String) (now : Nat) :
    (mkGoogleUser tok un now).username = un := rfl

theorem mkGoogleUser_email (tok : Claims) (un : String) (now : Nat) :
    (mkGoogleUser tok un now).email = tok.email := rfl

theorem base_username_some (u0 : String) (email : Option String) :
    base_username (some u0) email = Except.ok (baseFor u0 email) := by
  cases email with
  | none => rfl
  | some e =>
    by_cases he : e = ""
    · simp only [base_username, baseFor, if_pos he]
    · simp only [base_username, baseFor, if_neg he]

theorem base_username_of_email {uid : Option String} {e : String}
    (hene : e ≠ "") : base_username uid (some e) = Except.ok (localPart e) := by
  simp only [base_username, if_neg hene]

theorem findByUid_append_self {store : List User} {u : User}
    (h : findByUid store u.uid = none) :
    findByUid (store ++ [u]) u.uid = some u := by
  unfold findByUid at h ⊢
  rw [List.find?_append, h, Option.none_or]
  simp

/-- The insert performed by `google_login` for fresh claims: the resolved
username never collides, the uid was just checked absent, and the email is
assumed fresh. -/
theorem google_insert_success {store : List User} {tok : Claims} {now : Nat}
    {base : String}
    (habsent : findByUid store tok.uid = none)
    (hfresh : ∀ v ∈ store, ¬(tok.email.isSome = true ∧ v.email = tok.email)) :
    insertUser store (mkGoogleUser tok (resolve_username store base) now) =
      some (store ++ [mkGoogleUser tok (resolve_username store base) now]) := by
  refine insertUser_success ?_ ?_ ?_
  · exact resolve_username_fresh store base
  · rw [List.any_eq_false]
    intro v hv hb
    rw [Bool.and_eq_true, beq_iff_eq] at hb
    exact hfresh v hv ⟨hb.1, hb.2⟩
  · rw [List.any_eq_false]
    intro v hv hb
    rw [Bool.and_eq_true] at hb
    unfold findByUid at habsent
    rw [List.find?_eq_none] at habsent
    exact habsent v hv hb.2

/-- Evaluation of `google_login` on verified claims with an unseen subject
identifier, a computable base username, and a fresh email: it persists
exactly one new row and returns it with `new_user := true`. -/
theorem google_login_creates {verify : Verifier} {store : List User}
    {t : String} {tok : Claims} {base : String} {now : Nat}
    (hv : verify t = some tok)
    (habsent : findByUid store tok.uid = none)
    (hbase : base_username tok.uid tok.email = Except.ok base)
    (hfresh : ∀ v ∈ store, ¬(tok.email.isSome = true ∧ v.email = tok.email)) :
    google_login verify store t now =
      Except.ok
        ({ new_user := true,
           profile := profileOf (mkGoogleUser tok (resolve_username store base) now) },
         store ++ [mkGoogleUser tok (resolve_username store base) now]) := by
  simp only [google_login, hv, habsent, hbase]
  rw [google_insert_success habsent hfresh]

/-- Evaluation of `google_login` when the subject identifier already has a
row: the row is returned unchanged with `new_user := false` and the store
is untouched. -/
theorem google_login_existing {verify : Verifier} {store : List User}
    {t : String} {tok : Claims} {u : User} {now : Nat}
    (hv : verify t = some tok)
    (hfound : findByUid store tok.uid = some u) :
    google_login verify store t now =
      Except.ok ({ new_user := false, profile := profileOf u }, store) := by
  simp only [google_login, hv, hfound]

/-! ### Claim theorems -/

/-- C1: for every sequence of the operations register, resolve-or-create
(google-login) and update-profile executed sequentially from a store whose
usernames and (present) emails are unique, the resulting store still has
`username` unique across all users and `email` unique across all users,
and every pre-existing user keeps its position with its subject identifier
`uid` unchanged. -/
theorem c1_sequential_invariants (verify : Verifier) (store : List User)
    (ops : List Op) (hinv : StoreInv store) :
    StoreInv (runOps verify store ops) ∧
      UidsPreserved store (runOps verify store ops) := by
  induction ops generalizing store hinv with
  | nil => exact ⟨hinv, uidsPreserved_refl store⟩
  | cons op rest ih =>
    have h1 := stepOp_inv verify store op hinv
    have h2 := ih (stepOp verify store op) h1.1
    exact ⟨h2.1, h1.2.trans h2.2⟩

/-- Witness for C1: a concrete verifier, the empty store (trivially
unique), and a google-login / register / update-profile sequence. -/
theorem c1_sequential_invariants_witness :
    StoreInv ([] : List User) ∧
      (StoreInv (runOps
          (fun _ => some { uid := some "u1", email := some "a@x.com", name := some "Al", picture := none }) []
          [Op.glog "t" 0,
           Op.reg (some "Bearer t") "bob" "b@x.com" none 1,
           Op.upd (some "Bearer t") { bio := some "hi" }]) ∧
        UidsPreserved [] (runOps
          (fun _ => some { uid := some "u1", email := some "a@x.com", name := some "Al", picture := none }) []
          [Op.glog "t" 0,
           Op.reg (some "Bearer t") "bob" "b@x.com" none 1,
           Op.upd (some "Bearer t") { bio := some "hi" }])) :=
  ⟨List.Pairwise.nil,
   c1_sequential_invariants _ [] _ List.Pairwise.nil⟩

/-- C2: the username-collision loop of google-login returns the first free
name in the deterministic sequence base, base1, base2, ...: the result is
not in the store and every earlier candidate is taken, so the smallest
unused integer suffix is appended (the bare base being tried first). -/
theorem c2_smallest_unused_suffix (store : List User) (base : String) :
    ∃ k, resolve_username store base = candidate base k ∧
      usernameTaken store (candidate base k) = false ∧
      ∀ j, j < k → usernameTaken store (candidate base j) = true :=
  resolve_username_spec store base

/-- C8: for every finite store and candidate base, the collision loop of
resolve-or-create terminates — store.length + 1 iterations always reach a
free candidate — and every sufficient fuel computes the same result, so the
suffix exploration is a deterministic function of the store and base. -/
theorem c8_loop_terminates (store : List User) (base : String) (fuel : Nat)
    (hfuel : store.length + 1 ≤ fuel) :
    (resolveAux store base (store.length + 1) 0).isSome = true ∧
      resolveAux store base fuel 0 =
        resolveAux store base (store.length + 1) 0 := by
  obtain ⟨i, hi, hfree⟩ := exists_free_candidate store base
  obtain ⟨k, hres, -, -⟩ :=
    resolveAux_spec store base (store.length + 1) 0
      ⟨i, hi, by simpa using hfree⟩
  constructor
  · rw [hres]
    rfl
  · rw [hres]
    exact resolveAux_mono store base (store.length + 1) fuel 0 _ hfuel hres

/-- Witness for C8 at the empty store, base "al" and fuel 7. -/
theorem c8_loop_terminates_witness :
    ([] : List User).length + 1 ≤ 7 ∧
      ((resolveAux ([] : List User) "al" (([] : List User).length + 1) 0).isSome
          = true ∧
        resolveAux ([] : List User) "al" 7 0 =
          resolveAux ([] : List User) "al" (([] : List User).length + 1) 0) :=
  ⟨by decide, c8_loop_terminates [] "al" 7 (by decide)⟩

/-- C10: a register call whose authorization header is non-empty but has
no second whitespace-separated part (for example a bare token without the
"Bearer " prefix) evaluates authorization.split()[1] out of bounds and
fails with the uncaught IndexError instead of a 401 response. -/
theorem c10_register_index_error (verify : Verifier) (store : List User)
    (auth username email : String) (dn : Option String) (now : Nat)
    (hne : auth ≠ "") (hparts : (pysplit auth).length ≤ 1) :
    register_user verify store (some auth) username email dn now =
      Except.error AppError.indexError := by
  have hnone : (pysplit auth).get? 1 = none := List.get?_eq_none.mpr hparts
  simp only [register_user, if_neg hne, hnone]

/-- Witness for C10: the bare token "sometoken". -/
theorem c10_register_index_error_witness :
    ("sometoken" ≠ "" ∧ (pysplit "sometoken").length ≤ 1) ∧
      register_user (fun _ => none) [] (some "sometoken") "alice" "a@x.com"
          none 0 = Except.error AppError.indexError :=
  ⟨⟨by decide, by decide⟩,
   c10_register_index_error (fun _ => none) [] "sometoken" "alice" "a@x.com"
     none 0 (by decide) (by decide)⟩

/-- C5: authenticate-request (get_current_user) fails with 401 when the
authorization header is missing, not of the form "Bearer <token>", or the
token fails verification; fails with 404 when the token verifies but no
local user carries the subject identifier; and otherwise returns the
existing user, which is a member of the store — the guard reads the store
and never creates a record. -/
theorem c5_authenticate_guard (verify : Verifier) (store : List User)
    (auth : Option String) :
    (auth = none →
      get_current_user verify store auth =
        Except.error (AppError.http 401 "Authorization header missing")) ∧
    (∀ a, auth = some a →
      ((pysplit a).length ≠ 2 ∨ (pysplit a).headD "" ≠ "Bearer") →
      get_current_user verify store auth =
        Except.error (AppError.http 401 "Invalid authorization scheme")) ∧
    (∀ a, auth = some a → (pysplit a).length = 2 →
      (pysplit a).headD "" = "Bearer" →
      verify ((pysplit a).getD 1 "") = none →
      get_current_user verify store auth =
        Except.error (AppError.http 401 "Invalid or expired token")) ∧
    (∀ a tok, auth = some a → (pysplit a).length = 2 →
      (pysplit a).headD "" = "Bearer" →
      verify ((pysplit a).getD 1 "") = some tok →
      findByUid store tok.uid = none →
      get_current_user verify store auth =
        Except.error (AppError.http 404 "User not found in database")) ∧
    (∀ a tok u, auth = some a → (pysplit a).length = 2 →
      (pysplit a).headD "" = "Bearer" →
      verify ((pysplit a).getD 1 "") = some tok →
      findByUid store tok.uid = some u →
      get_current_user verify store auth = Except.ok u ∧ u ∈ store) := by
  refine ⟨?_, ?_, ?_, ?_, ?_⟩
  · rintro rfl
    rfl
  · rintro a rfl hbad
    have hcond :
        ((pysplit a).length ≠ 2 || (pysplit a).headD "" ≠ "Bearer") = true := by
      rcases hbad with h | h
      · rw [decide_eq_true h]
        rfl
      · rw [decide_eq_true h, Bool.or_true]
    simp only [get_current_user, if_pos hcond]
  · rintro a rfl hlen hhead hv
    have h1 : decide ((pysplit a).length ≠ 2) = false :=
      decide_eq_false fun hne => hne hlen
    have h2 : decide ((pysplit a).headD "" ≠ "Bearer") = false :=
      decide_eq_false fun hne => hne hhead
    simp only [get_current_user]
    rw [if_neg (by rw [h1, h2]; exact Bool.false_ne_true)]
    simp only [hv]
  · rintro a tok rfl hlen hhead hv hfind
    have h1 : decide ((pysplit a).length ≠ 2) = false :=
      decide_eq_false fun hne => hne hlen
    have h2 : decide ((pysplit a).headD "" ≠ "Bearer") = false :=
      decide_eq_false fun hne => hne hhead
    simp only [get_current_user]
    rw [if_neg (by rw [h1, h2]; exact Bool.false_ne_true)]
    simp only [hv, hfind]
  · rintro a tok u rfl hlen hhead hv hfind
    have h1 : decide ((pysplit a).length ≠ 2) = false :=
      decide_eq_false fun hne => hne hlen
    have h2 : decide ((pysplit a).headD "" ≠ "Bearer") = false :=
      decide_eq_false fun hne => hne hhead
    constructor
    · simp only [get_current_user]
      rw [if_neg (by rw [h1, h2]; exact Bool.false_ne_true)]
      simp only [hv, hfind]
    · unfold findByUid at hfind
      exact List.mem_of_find?_eq_some hfind

/-- Witness for C5: the five outcomes at concrete headers, verifiers and
stores — missing header, bare token, invalid token, unknown subject, and
a known subject returning the stored alice row. -/
theorem c5_authenticate_guard_witness :
    get_current_user (fun _ => none) [] none =
        Except.error (AppError.http 401 "Authorization header missing") ∧
    get_current_user (fun _ => none) [] (some "garbage") =
        Except.error (AppError.http 401 "Invalid authorization scheme") ∧
    get_current_user (fun _ => none) [] (some "Bearer badtok") =
        Except.error (AppError.http 401 "Invalid or expired token") ∧
    get_current_user (fun _ => some { uid := some "u9" }) [] (some "Bearer tok") =
        Except.error (AppError.http 404 "User not found in database") ∧
    (get_current_user (fun _ => some { uid := some "u1" })
          [{ uid := some "u1", username := "alice", email := some "a@x.com" }]
          (some "Bearer tok") =
        Except.ok { uid := some "u1", username := "alice", email := some "a@x.com" } ∧
      ({ uid := some "u1", username := "alice", email := some "a@x.com" } : User) ∈
        [{ uid := some "u1", username := "alice", email := some "a@x.com" }]) :=
  ⟨(c5_authenticate_guard (fun _ => none) [] none).1 rfl,
   (c5_authenticate_guard (fun _ => none) [] (some "garbage")).2.1 "garbage"
     rfl (Or.inl (by decide)),
   (c5_authenticate_guard (fun _ => none) [] (some "Bearer badtok")).2.2.1
     "Bearer badtok" rfl (by decide) (by decide) rfl,
   (c5_authenticate_guard (fun _ => some { uid := some "u9" }) []
       (some "Bearer tok")).2.2.2.1 "Bearer tok" { uid := some "u9" }
     rfl (by decide) (by decide) rfl rfl,
   (c5_authenticate_guard (fun _ => some { uid := some "u1" })
       [{ uid := some "u1", username := "alice", email := some "a@x.com" }]
       (some "Bearer tok")).2.2.2.2 "Bearer tok" { uid := some "u1" }
     { uid := some "u1", username := "alice", email := some "a@x.com" }
     rfl (by decide) (by decide) rfl rfl⟩

/-- C7: update-profile mutates exactly the truthy-supplied payload fields:
each of display_name, state, language, photo_url and bio is set when the
supplied value is a nonempty string and left unchanged when it is absent or
the empty string, no other column is touched, and the route returns the
updated current user together with the updated store.  In particular the
payload {display_name := "", bio := "new bio"} leaves display_name
unchanged and sets bio (see the witness). -/
theorem c7_partial_update (verify : Verifier) (store : List User)
    (auth : Option String) (p : ProfileUpdate) (cu : User)
    (hcu : get_current_user verify store auth = Except.ok cu) :
    update_user_profile verify store auth p =
      Except.ok (applyProfileUpdate cu p, store.map fun v =>
        if v.username == cu.username then applyProfileUpdate v p else v) ∧
    (applyProfileUpdate cu p).display_name =
      (if truthy p.display_name then p.display_name else cu.display_name) ∧
    (applyProfileUpdate cu p).state =
      (if truthy p.state then p.state else cu.state) ∧
    (applyProfileUpdate cu p).language =
      (if truthy p.language then p.language else cu.language) ∧
    (applyProfileUpdate cu p).photo_url =
      (if truthy p.photo_url then p.photo_url else cu.photo_url) ∧
    (applyProfileUpdate cu p).bio =
      (if truthy p.bio then p.bio else cu.bio) ∧
    (applyProfileUpdate cu p).username = cu.username ∧
    (applyProfileUpdate cu p).email = cu.email ∧
    (applyProfileUpdate cu p).uid = cu.uid ∧
    (applyProfileUpdate cu p).hashed_password = cu.hashed_password ∧
    (applyProfileUpdate cu p).created_at = cu.created_at := by
  refine ⟨?_, ?_, ?_, ?_, ?_, ?_, ?_, ?_, ?_, ?_, ?_⟩
  · simp only [update_user_profile, hcu]
  all_goals rw [applyProfileUpdate_spec]

/-- Witness for C7: the claim's own instance — a payload with an empty
display_name and bio "new bio" applied to a user whose display_name is
"Old" keeps the display_name and sets the bio. -/
theorem c7_partial_update_witness :
    (applyProfileUpdate
        { uid := some "u1", username := "alice", email := none, display_name := some "Old" }
        { display_name := some "", bio := some "new bio" }).display_name =
        some "Old" ∧
      (applyProfileUpdate
        { uid := some "u1", username := "alice", email := none, display_name := some "Old" }
        { display_name := some "", bio := some "new bio" }).bio =
        some "new bio" := by
  have h := c7_partial_update (fun _ => some { uid := some "u1" })
    [{ uid := some "u1", username := "alice", email := none, display_name := some "Old" }]
    (some "Bearer t") { display_name := some "", bio := some "new bio" }
    { uid := some "u1", username := "alice", email := none, display_name := some "Old" } rfl
  exact ⟨h.2.1.trans rfl, h.2.2.2.2.2.1.trans rfl⟩

/-- C3 counterexample: the claim as stated fails when the claim email
(though derivable) already belongs to another user's row.  With
alice@store holding e@x.com and fresh subject u2 presenting the same
email, the first resolve-or-create call does not return created=true: the
insert trips the email unique constraint and the request dies with the
uncaught IntegrityError. -/
theorem c3_login_idempotent_counterexample :
    google_login (fun _ => some { uid := some "u2", email := some "e@x.com" })
        [{ uid := some "u1", username := "alice", email := some "e@x.com" }]
        "t" 0 =
      Except.error AppError.integrityError := rfl

/-- C3 (amended): for every claim set with a derivable (nonempty) email
that no existing row already holds and a subject identifier not yet in the
store, calling resolve-or-create twice with the same subject identifier
returns created=true then created=false, the second call returns identity
data identical to the first, and the second call leaves the store
unchanged. -/
theorem c3_login_idempotent (verify : Verifier) (store : List User)
    (t : String) (tok : Claims) (e : String) (now now2 : Nat)
    (hv : verify t = some tok)
    (hemail : tok.email = some e) (hene : e ≠ "")
    (huid : findByUid store tok.uid = none)
    (hfresh : ∀ v ∈ store, v.email ≠ some e) :
    google_login verify store t now =
      Except.ok
        ({ new_user := true,
           profile := profileOf
             (mkGoogleUser tok (resolve_username store (localPart e)) now) },
         store ++ [mkGoogleUser tok (resolve_username store (localPart e)) now]) ∧
    google_login verify
        (store ++ [mkGoogleUser tok (resolve_username store (localPart e)) now])
        t now2 =
      Except.ok
        ({ new_user := false,
           profile := profileOf
             (mkGoogleUser tok (resolve_username store (localPart e)) now) },
         store ++ [mkGoogleUser tok (resolve_username store (localPart e)) now]) := by
  constructor
  · refine google_login_creates hv huid ?_ ?_
    · rw [hemail]
      exact base_username_of_email hene
    · intro v hv'
      rintro ⟨-, heq⟩
      rw [hemail] at heq
      exact hfresh v hv' heq
  · exact google_login_existing hv (findByUid_append_self huid)

/-- Witness for C3: subject u1 with email al@x.com logging in twice from
the empty store. -/
theorem c3_login_idempotent_witness :
    google_login (fun _ => some { uid := some "u1", email := some "al@x.com" })
        [] "t" 0 =
      Except.ok
        ({ new_user := true,
           profile := profileOf
             (mkGoogleUser { uid := some "u1", email := some "al@x.com" }
               (resolve_username [] (localPart "al@x.com")) 0) },
         [mkGoogleUser { uid := some "u1", email := some "al@x.com" }
           (resolve_username [] (localPart "al@x.com")) 0]) ∧
    google_login (fun _ => some { uid := some "u1", email := some "al@x.com" })
        [mkGoogleUser { uid := some "u1", email := some "al@x.com" }
          (resolve_username [] (localPart "al@x.com")) 0] "t" 1 =
      Except.ok
        ({ new_user := false,
           profile := profileOf
             (mkGoogleUser { uid := some "u1", email := some "al@x.com" }
               (resolve_username [] (localPart "al@x.com")) 0) },
         [mkGoogleUser { uid := some "u1", email := some "al@x.com" }
           (resolve_username [] (localPart "al@x.com")) 0]) :=
  c3_login_idempotent (fun _ => some { uid := some "u1", email := some "al@x.com" })
    [] "t" { uid := some "u1", email := some "al@x.com" } "al@x.com" 0 1
    rfl rfl (by decide) rfl (by simp)

/-- C4 counterexample: with an email claim that is present but empty
(claims uid abcdefghij, email ""), the candidate username is not the
email's local-part "" as the claim states — the code falls back to the
user_ prefix and creates username "user_abcdefgh". -/
theorem c4_creation_counterexample :
    (google_login (fun _ => some { uid := some "abcdefghij", email := some "" })
          [] "t" 0).toOption.map (fun r => r.1.profile.username) =
        some "user_abcdefgh" ∧
      localPart "" = "" ∧ ("user_abcdefgh" : String) ≠ "" :=
  ⟨rfl, rfl, by decide⟩

/-- C4 (amended): for every verified claim set carrying a subject
identifier absent from the store and whose email does not duplicate an
existing row, resolve-or-create persists exactly one record whose
candidate base username is the local-part of the claim email when a
NONEMPTY email claim is present and otherwise the fixed prefix "user_"
plus the first eight characters of the subject identifier; the record
carries the claims' subject identifier, email, display name and photo URL,
and the call returns it with created=true. -/
theorem c4_creation (verify : Verifier) (store : List User) (t : String)
    (tok : Claims) (u0 : String) (now : Nat)
    (hv : verify t = some tok)
    (huid0 : tok.uid = some u0)
    (habsent : findByUid store tok.uid = none)
    (hfresh : ∀ v ∈ store, ¬(tok.email.isSome = true ∧ v.email = tok.email)) :
    google_login verify store t now =
      Except.ok
        ({ new_user := true,
           profile := profileOf
             (mkGoogleUser tok
               (resolve_username store (baseFor u0 tok.email)) now) },
         store ++
           [mkGoogleUser tok (resolve_username store (baseFor u0 tok.email)) now]) ∧
    (mkGoogleUser tok (resolve_username store (baseFor u0 tok.email)) now).uid
        = some u0 ∧
    (mkGoogleUser tok (resolve_username store (baseFor u0 tok.email)) now).email
        = tok.email ∧
    (mkGoogleUser tok
        (resolve_username store (baseFor u0 tok.email)) now).display_name
        = tok.name ∧
    (mkGoogleUser tok
        (resolve_username store (baseFor u0 tok.email)) now).photo_url
        = tok.picture ∧
    (mkGoogleUser tok
        (resolve_username store (baseFor u0 tok.email)) now).created_at = now ∧
    (mkGoogleUser tok
        (resolve_username store (baseFor u0 tok.email)) now).hashed_password
        = none := by
  refine ⟨?_, ?_, rfl, rfl, rfl, rfl, rfl⟩
  · refine google_login_creates hv habsent ?_ hfresh
    rw [huid0]
    exact base_username_some u0 tok.email
  · exact huid0

/-- Witness for C4 along the fallback path: a claim set with no email and
subject subject-12345 creates username user_subject- from the empty
store. -/
theorem c4_creation_witness :
    google_login
        (fun _ => some { uid := some "subject-12345", email := none, name := some "N", picture := some "P" }) [] "t" 3 =
      Except.ok
        ({ new_user := true,
           profile := profileOf
             (mkGoogleUser
               { uid := some "subject-12345", email := none, name := some "N", picture := some "P" }
               (resolve_username []
                 (baseFor "subject-12345" none)) 3) },
         [mkGoogleUser
           { uid := some "subject-12345", email := none, name := some "N", picture := some "P" }
           (resolve_username [] (baseFor "subject-12345" none)) 3]) ∧
    (mkGoogleUser
        { uid := some "subject-12345", email := none, name := some "N", picture := some "P" }
        (resolve_username [] (baseFor "subject-12345" none)) 3).uid
      = some "subject-12345" ∧
    (mkGoogleUser
        { uid := some "subject-12345", email := none, name := some "N", picture := some "P" }
        (resolve_username [] (baseFor "subject-12345" none)) 3).email = none ∧
    (mkGoogleUser
        { uid := some "subject-12345", email := none, name := some "N", picture := some "P" }
        (resolve_username [] (baseFor "subject-12345" none)) 3).display_name
      = some "N" ∧
    (mkGoogleUser
        { uid := some "subject-12345", email := none, name := some "N", picture := some "P" }
        (resolve_username [] (baseFor "subject-12345" none)) 3).photo_url
      = some "P" ∧
    (mkGoogleUser
        { uid := some "subject-12345", email := none, name := some "N", picture := some "P" }
        (resolve_username [] (baseFor "subject-12345" none)) 3).created_at
      = 3 ∧
    (mkGoogleUser
        { uid := some "subject-12345", email := none, name := some "N", picture := some "P" }
        (resolve_username [] (baseFor "subject-12345" none)) 3).hashed_password
      = none :=
  c4_creation
    (fun _ => some { uid := some "subject-12345", email := none, name := some "N", picture := some "P" }) [] "t"
    { uid := some "subject-12345", email := none, name := some "N", picture := some "P" } "subject-12345" 3
    rfl rfl rfl (by simp)

/-- C6 counterexample: with alice holding a@x.com, registering the fresh
username "bob" with the same email a@x.com does not create-and-return as
the claim states — the insert trips the email unique constraint and the
request dies with the uncaught IntegrityError, persisting nothing. -/
theorem c6_register_counterexample :
    usernameTaken
        [{ uid := some "u1", username := "alice", email := some "a@x.com" }]
        "bob" = false ∧
      register_user (fun _ => some { uid := some "u2" })
          [{ uid := some "u1", username := "alice", email := some "a@x.com" }]
          (some "Bearer t") "bob" "a@x.com" none 1 =
        Except.error AppError.integrityError :=
  ⟨rfl, rfl⟩

/-- C6 (amended): register fails with a 400 conflict when the requested
username already exists (in particular register("alice") twice with
different subject identifiers fails the second call); when the username is
fresh AND the email and subject identifier do not duplicate an existing
row, it creates and persists exactly one record with hashed_password left
unset and returns it (a colliding email or subject identifier instead
kills the insert with an uncaught IntegrityError and persists nothing). -/
theorem c6_register_conflict_or_create (verify : Verifier)
    (store : List User) (auth tokenStr : String) (tok : Claims)
    (username email : String) (dn : Option String) (now : Nat)
    (hne : auth ≠ "")
    (htok : (pysplit auth).get? 1 = some tokenStr)
    (hv : verify tokenStr = some tok) :
    (usernameTaken store username = true →
      register_user verify store (some auth) username email dn now =
        Except.error (AppError.http 400 "Username already taken")) ∧
    (usernameTaken store username = false →
      (∀ v ∈ store, v.email ≠ some email) →
      (∀ v ∈ store, ¬(tok.uid.isSome = true ∧ v.uid = tok.uid)) →
      register_user verify store (some auth) username email dn now =
        Except.ok (mkRegisteredUser tok.uid username email dn now,
          store ++ [mkRegisteredUser tok.uid username email dn now]) ∧
      (mkRegisteredUser tok.uid username email dn now).hashed_password
        = none) := by
  constructor
  · intro hconf
    simp only [register_user, if_neg hne, htok, hv, if_pos hconf]
  · intro hfree hememail huid
    refine ⟨?_, rfl⟩
    simp only [register_user, if_neg hne, htok, hv]
    rw [if_neg (by rw [hfree]; exact Bool.false_ne_true)]
    have hins :
        insertUser store (mkRegisteredUser tok.uid username email dn now) =
          some (store ++ [mkRegisteredUser tok.uid username email dn now]) := by
      refine insertUser_success hfree ?_ ?_
      · rw [List.any_eq_false]
        intro v hv' hb
        rw [Bool.and_eq_true, beq_iff_eq] at hb
        exact hememail v hv' hb.2
      · rw [List.any_eq_false]
        intro v hv' hb
        rw [Bool.and_eq_true, beq_iff_eq] at hb
        exact huid v hv' ⟨hb.1, hb.2⟩
    rw [hins]

/-- Witness for C6: both branches at concrete stores — registering "alice"
again (different subject) conflicts; registering the fresh "bob" with a
fresh email and subject persists the new row with hashed_password unset. -/
theorem c6_register_conflict_or_create_witness :
    (usernameTaken
        [{ uid := some "u1", username := "alice", email := some "a@x.com" }]
        "alice" = true ∧
      register_user (fun _ => some { uid := some "u2" })
          [{ uid := some "u1", username := "alice", email := some "a@x.com" }]
          (some "Bearer t") "alice" "b@x.com" none 1 =
        Except.error (AppError.http 400 "Username already taken")) ∧
    (usernameTaken
        [{ uid := some "u1", username := "alice", email := some "a@x.com" }]
        "bob" = false ∧
      register_user (fun _ => some { uid := some "u2" })
          [{ uid := some "u1", username := "alice", email := some "a@x.com" }]
          (some "Bearer t") "bob" "b@x.com" none 1 =
        Except.ok
          (mkRegisteredUser (some "u2") "bob" "b@x.com" none 1,
           [{ uid := some "u1", username := "alice", email := some "a@x.com" },
            mkRegisteredUser (some "u2") "bob" "b@x.com" none 1]) ∧
      (mkRegisteredUser (some "u2") "bob" "b@x.com" none 1).hashed_password
        = none) :=
  ⟨⟨rfl,
    (c6_register_conflict_or_create (fun _ => some { uid := some "u2" })
        [{ uid := some "u1", username := "alice", email := some "a@x.com" }]
        "Bearer t" "t" { uid := some "u2" } "alice" "b@x.com" none 1
        (by decide) rfl rfl).1 rfl⟩,
   ⟨rfl,
    (c6_register_conflict_or_create (fun _ => some { uid := some "u2" })
        [{ uid := some "u1", username := "alice", email := some "a@x.com" }]
        "Bearer t" "t" { uid := some "u2" } "bob" "b@x.com" none 1
        (by decide) rfl rfl).2 rfl (by decide) (by decide)⟩⟩

end Logins
